import Mathlib

/-
  Verification development for the anything2anki repository.

  The definitions below are a shallow embedding of the core of the source:
  - schemas.py     (Flashcard / FlashcardList / FlashcardFeedback validation)
  - prompts.py     (preset instructions and prompt construction)
  - workflow.py    (response parsing and the generation-reflection-improvement loop)

  Python strings are modelled as Lean String values; Python str.strip() is
  modelled by pyStrip below.  The external JSON decoder used by pydantic
  model_validate_json is modelled by jsonDecode, a standard JSON reader,
  and the parse functions take the decoder as a parameter.  The external
  completion client (aisuite) is modelled by an oracle mapping the call
  index and the prompts to a raw response.  File-system writes (markdown
  report, .apkg package) are modelled as effects recorded in the run state
  and are assumed to succeed; the input-file reading of workflow.py is an
  external collaborator and is represented by the textContent parameter.
-/

/-- Model of the Python whitespace class stripped by str.strip(). -/
def pyIsSpace (c : Char) : Bool :=
  c = ' ' || c = '\t' || c = '\n' || c = '\r' || c = '\x0b' || c = '\x0c'

/-- Model of Python str.strip(): drop leading and trailing whitespace. -/
def pyStrip (s : String) : String :=
  String.mk (((s.toList.dropWhile pyIsSpace).reverse.dropWhile pyIsSpace).reverse)

/-- JSON values, the target of the external JSON decoder used by
pydantic model_validate_json in workflow.py. -/
inductive Json where
  | null : Json
  | bool (b : Bool) : Json
  | num (n : Int) : Json
  | str (s : String) : Json
  | arr (elems : List Json) : Json
  | obj (fields : List (String × Json)) : Json
deriving Repr

/-- Skip JSON whitespace. -/
def skipWs : List Char → List Char
  | c :: rest => if c = ' ' || c = '\t' || c = '\n' || c = '\r' then skipWs rest else c :: rest
  | [] => []

/-- Value of a hexadecimal digit. -/
def hexVal (c : Char) : Option Nat :=
  if '0' ≤ c ∧ c ≤ '9' then some (c.toNat - '0'.toNat)
  else if 'a' ≤ c ∧ c ≤ 'f' then some (c.toNat - 'a'.toNat + 10)
  else if 'A' ≤ c ∧ c ≤ 'F' then some (c.toNat - 'A'.toNat + 10)
  else none

/-- Read the body of a JSON string literal (after the opening quote),
handling the standard escapes. -/
def pStringBody : List Char → List Char → Option (String × List Char)
  | [], _ => none
  | '"' :: rest, acc => some (String.mk acc.reverse, rest)
  | '\\' :: esc, acc =>
    match esc with
    | '"' :: rest => pStringBody rest ('"' :: acc)
    | '\\' :: rest => pStringBody rest ('\\' :: acc)
    | '/' :: rest => pStringBody rest ('/' :: acc)
    | 'n' :: rest => pStringBody rest ('\n' :: acc)
    | 't' :: rest => pStringBody rest ('\t' :: acc)
    | 'r' :: rest => pStringBody rest ('\r' :: acc)
    | 'b' :: rest => pStringBody rest ('\x08' :: acc)
    | 'f' :: rest => pStringBody rest ('\x0c' :: acc)
    | 'u' :: h1 :: h2 :: h3 :: h4 :: rest =>
      match hexVal h1, hexVal h2, hexVal h3, hexVal h4 with
      | some a, some b, some c, some d =>
        pStringBody rest (Char.ofNat (((a * 16 + b) * 16 + c) * 16 + d) :: acc)
      | _, _, _, _ => none
    | _ => none
  | c :: rest, acc => pStringBody rest (c :: acc)

/-- Read the digits of a JSON integer. -/
def pDigits : List Char → Nat → Option (Nat × List Char)
  | c :: rest, acc =>
    if c.isDigit then
      match pDigits rest (acc * 10 + (c.toNat - '0'.toNat)) with
      | some r => some r
      | none => some (acc * 10 + (c.toNat - '0'.toNat), rest)
    else none
  | [], _ => none

/-- Read a JSON integer (floats are not needed by this repository's data). -/
def pNumber : List Char → Option (Int × List Char)
  | '-' :: rest =>
    match pDigits rest 0 with
    | some (n, r) => some (-(n : Int), r)
    | none => none
  | cs =>
    match pDigits cs 0 with
    | some (n, r) => some ((n : Int), r)
    | none => none

mutual

/-- Read one JSON value; the fuel bounds the nesting depth. -/
def pValue : Nat → List Char → Option (Json × List Char)
  | 0, _ => none
  | fuel + 1, cs =>
    match skipWs cs with
    | 'n' :: 'u' :: 'l' :: 'l' :: rest => some (.null, rest)
    | 't' :: 'r' :: 'u' :: 'e' :: rest => some (.bool true, rest)
    | 'f' :: 'a' :: 'l' :: 's' :: 'e' :: rest => some (.bool false, rest)
    | '"' :: rest =>
      match pStringBody rest [] with
      | some (s, r) => some (.str s, r)
      | none => none
    | '[' :: rest =>
      match skipWs rest with
      | ']' :: r2 => some (.arr [], r2)
      | other => pElems fuel other []
    | '\x7b' :: rest =>
      match skipWs rest with
      | '\x7d' :: r2 => some (.obj [], r2)
      | other => pMembers fuel other []
    | other => pNumber other |>.map fun (n, r) => (.num n, r)

/-- Read the elements of a non-empty JSON array. -/
def pElems : Nat → List Char → List Json → Option (Json × List Char)
  | 0, _, _ => none
  | fuel + 1, cs, acc =>
    match pValue fuel cs with
    | none => none
    | some (v, rest) =>
      match skipWs rest with
      | ',' :: r2 => pElems fuel r2 (v :: acc)
      | ']' :: r2 => some (.arr (v :: acc).reverse, r2)
      | _ => none

/-- Read the members of a non-empty JSON object. -/
def pMembers : Nat → List Char → List (String × Json) → Option (Json × List Char)
  | 0, _, _ => none
  | fuel + 1, cs, acc =>
    match skipWs cs with
    | '"' :: rest =>
      match pStringBody rest [] with
      | none => none
      | some (key, r1) =>
        match skipWs r1 with
        | ':' :: r2 =>
          match pValue fuel r2 with
          | none => none
          | some (v, r3) =>
            match skipWs r3 with
            | ',' :: r4 => pMembers fuel r4 ((key, v) :: acc)
            | '\x7d' :: r4 => some (.obj ((key, v) :: acc).reverse, r4)
            | _ => none
        | _ => none
    | _ => none

end

/-- Model of the external JSON decoder invoked by pydantic
model_validate_json: decode the whole string as a single JSON value
(trailing garbage rejected, as the json / jiter decoders do). -/
def jsonDecode (s : String) : Option Json :=
  let cs := s.toList
  match pValue (cs.length + 1) cs with
  | some (v, rest) => if (skipWs rest).isEmpty then some v else none
  | none => none

/-- Errors raised by the validators in schemas.py (pydantic ValueError
messages raised inside field/model validators). -/
inductive SchemaError where
  | valueError (msg : String) : SchemaError
deriving Repr, DecidableEq

/-- schemas.py Flashcard: a validated question/answer pair. -/
structure Flashcard where
  question : String
  answer : String
deriving Repr, DecidableEq

/-- schemas.py Flashcard._ensure_trimmed: strip the string, then reject
it if it is empty. -/
def Flashcard.ensureTrimmed (value : String) : Except SchemaError String :=
  let v := pyStrip value
  if v = "" then .error (.valueError "Value must be a non-empty string")
  else .ok v

/-- Validation performed by constructing a Flashcard model from the two
string fields: both run through Flashcard._ensure_trimmed. -/
def validate_flashcard (question answer : String) : Except SchemaError Flashcard :=
  match Flashcard.ensureTrimmed question with
  | .error e => .error e
  | .ok q =>
    match Flashcard.ensureTrimmed answer with
    | .error e => .error e
    | .ok a => .ok ⟨q, a⟩

/-- Look a key up in a decoded JSON object; as in Python dicts built by the
json decoder, the last binding of a duplicated key wins. -/
def jLookup (fields : List (String × Json)) (key : String) : Option Json :=
  fields.reverse.lookup key

/-- Validation of one flashcard item of a decoded JSON array, as performed by
pydantic when validating an element of FlashcardList: the item must be an
object whose question and answer fields are strings, and the string values run
through Flashcard._ensure_trimmed. -/
def validateFlashcardJson (j : Json) : Except SchemaError Flashcard :=
  match j with
  | .obj fields =>
    match jLookup fields "question", jLookup fields "answer" with
    | some (.str q), some (.str a) => validate_flashcard q a
    | _, _ => .error (.valueError "missing or non-string flashcard field")
  | _ => .error (.valueError "flashcard item is not an object")

/-- schemas.py FlashcardList validation: validate every item, then
FlashcardList._ensure_non_empty rejects an empty result list. -/
def validate_flashcard_list (items : List Json) : Except SchemaError (List Flashcard) :=
  match items.mapM validateFlashcardJson with
  | .error e => .error e
  | .ok cards =>
    if cards.isEmpty then .error (.valueError "At least one flashcard must be provided")
    else .ok cards

/-- schemas.py FlashcardFeedback: validated reflection feedback. -/
structure FlashcardFeedback where
  strengths : List String
  weaknesses : List String
  recommendations : List String
  overall_quality : String
deriving Repr, DecidableEq

/-- The cleaning loop of FlashcardFeedback._validate_non_empty_items: strip
each item and keep only the non-empty results. -/
def cleanItems : List String → List String
  | [] => []
  | v :: rest =>
    let v' := pyStrip v
    if v' = "" then cleanItems rest else v' :: cleanItems rest

/-- schemas.py FlashcardFeedback._validate_non_empty_items: clean the list,
then reject it if nothing remains. -/
def FlashcardFeedback.validateNonEmptyItems (values : List String) : Except SchemaError (List String) :=
  let cleaned := cleanItems values
  if cleaned.isEmpty then .error (.valueError "List must contain at least one non-empty item")
  else .ok cleaned

/-- schemas.py FlashcardFeedback._trim_quality: strip, then reject empty. -/
def FlashcardFeedback.trimQuality (value : String) : Except SchemaError String :=
  let v := pyStrip value
  if v = "" then .error (.valueError "overall_quality must be a non-empty string")
  else .ok v

/-- Validation performed by constructing a FlashcardFeedback model from its
four fields: the three list fields run through _validate_non_empty_items and
overall_quality runs through _trim_quality. -/
def validateFeedbackFields (strengths weaknesses recommendations : List String)
    (overallQuality : String) : Except SchemaError FlashcardFeedback :=
  match FlashcardFeedback.validateNonEmptyItems strengths with
  | .error e => .error e
  | .ok s =>
    match FlashcardFeedback.validateNonEmptyItems weaknesses with
    | .error e => .error e
    | .ok w =>
      match FlashcardFeedback.validateNonEmptyItems recommendations with
      | .error e => .error e
      | .ok r =>
        match FlashcardFeedback.trimQuality overallQuality with
        | .error e => .error e
        | .ok q => .ok ⟨s, w, r, q⟩

/-- Coerce a decoded JSON value to a list of strings, as pydantic requires for
the list[str] fields of FlashcardFeedback. -/
def asStrList (j : Json) : Option (List String) :=
  match j with
  | .arr xs => xs.mapM fun x => match x with | .str s => some s | _ => none
  | _ => none

/-- Validation performed by pydantic when building a FlashcardFeedback from a
decoded JSON object: all four keys must be present with the right types, and
the field validators of schemas.py then run. -/
def validateFeedbackJson (fields : List (String × Json)) : Except SchemaError FlashcardFeedback :=
  match jLookup fields "strengths", jLookup fields "weaknesses",
        jLookup fields "recommendations", jLookup fields "overall_quality" with
  | some sj, some wj, some rj, some (.str q) =>
    match asStrList sj, asStrList wj, asStrList rj with
    | some s, some w, some r => validateFeedbackFields s w r q
    | _, _, _ => .error (.valueError "feedback list field is not a list of strings")
  | _, _, _, _ => .error (.valueError "missing or non-string feedback field")

/-- Hexadecimal digit character for json.dumps control-character escapes. -/
def hexDigitChar (n : Nat) : Char :=
  if n < 10 then Char.ofNat ('0'.toNat + n) else Char.ofNat ('a'.toNat + n - 10)

/-- Escape one character as json.dumps does with ensure_ascii=False. -/
def jsonEscapeChar (c : Char) : List Char :=
  if c = '"' then ['\\', '"']
  else if c = '\\' then ['\\', '\\']
  else if c = '\n' then ['\\', 'n']
  else if c = '\t' then ['\\', 't']
  else if c = '\r' then ['\\', 'r']
  else if c = '\x08' then ['\\', 'b']
  else if c = '\x0c' then ['\\', 'f']
  else if c.toNat < 32 then
    ['\\', 'u', '0', '0', hexDigitChar (c.toNat / 16), hexDigitChar (c.toNat % 16)]
  else [c]

/-- Serialise a string as a JSON string literal (ensure_ascii=False). -/
def jsonQuote (s : String) : String :=
  String.mk ('"' :: (s.toList.flatMap jsonEscapeChar) ++ ['"'])

/-- Indentation used by json.dumps(..., indent=2). -/
def jsonIndent (lvl : Nat) : String :=
  String.mk (List.replicate (2 * lvl) ' ')

mutual

/-- Model of json.dumps(value, indent=2, ensure_ascii=False), used by
prompts.py to serialise prior cards and feedback into prompts. -/
def dumpJson (lvl : Nat) : Json → String
  | .null => "null"
  | .bool true => "true"
  | .bool false => "false"
  | .num n => toString n
  | .str s => jsonQuote s
  | .arr [] => "[]"
  | .arr (x :: xs) =>
    "[\n" ++ dumpElemsJson (lvl + 1) x xs ++ "\n" ++ jsonIndent lvl ++ "]"
  | .obj [] => "\x7b\x7d"
  | .obj (f :: fs) =>
    "\x7b\n" ++ dumpFieldsJson (lvl + 1) f fs ++ "\n" ++ jsonIndent lvl ++ "\x7d"
termination_by j => sizeOf j
decreasing_by all_goals (simp_wf; try omega)

/-- Render array elements, comma-and-newline separated, each indented. -/
def dumpElemsJson (lvl : Nat) (x : Json) : List Json → String
  | [] => jsonIndent lvl ++ dumpJson lvl x
  | y :: ys => jsonIndent lvl ++ dumpJson lvl x ++ ",\n" ++ dumpElemsJson lvl y ys
termination_by xs => 1 + sizeOf x + sizeOf xs
decreasing_by all_goals (simp_wf; try omega)

/-- Render object members, comma-and-newline separated, each indented. -/
def dumpFieldsJson (lvl : Nat) : String × Json → List (String × Json) → String
  | (k, v), [] => jsonIndent lvl ++ jsonQuote k ++ ": " ++ dumpJson lvl v
  | (k, v), g :: gs =>
    jsonIndent lvl ++ jsonQuote k ++ ": " ++ dumpJson lvl v ++ ",\n" ++ dumpFieldsJson lvl g gs
termination_by f fs => 1 + sizeOf f + sizeOf fs
decreasing_by all_goals (simp_wf; try omega)

end

/-- prompts.py AVAILABLE_PRESETS: the closed preset set exposed for the CLI. -/
def AVAILABLE_PRESETS : List String :=
  ["general", "cloze", "concepts", "procedures", "programming"]

/-- Modelled from the spec: schemas.py FLASHCARD_SCHEMA is the JSON schema of
FlashcardList rendered by the external library call
json.dumps(FlashcardList.model_json_schema(), indent=2, ensure_ascii=False);
the spec only requires that the system prompts embed this schema description.
The rendered text is represented by a fixed string. -/
def FLASHCARD_SCHEMA : String :=
  "\x7b\n  \"$defs\": \x7b\n    \"Flashcard\": \x7b\n      \"properties\": \x7b\n        \"question\": \x7b\"type\": \"string\"\x7d,\n        \"answer\": \x7b\"type\": \"string\"\x7d\n      \x7d,\n      \"required\": [\"question\", \"answer\"],\n      \"type\": \"object\"\n    \x7d\n  \x7d,\n  \"items\": \x7b\"$ref\": \"#/$defs/Flashcard\"\x7d,\n  \"type\": \"array\"\n\x7d"

/-- Modelled from the spec: schemas.py FEEDBACK_SCHEMA is the JSON schema of
FlashcardFeedback rendered by the external library call
json.dumps(FlashcardFeedback.model_json_schema(), indent=2, ensure_ascii=False);
represented by a fixed string as for FLASHCARD_SCHEMA. -/
def FEEDBACK_SCHEMA : String :=
  "\x7b\n  \"properties\": \x7b\n    \"strengths\": \x7b\"items\": \x7b\"type\": \"string\"\x7d, \"minItems\": 1, \"type\": \"array\"\x7d,\n    \"weaknesses\": \x7b\"items\": \x7b\"type\": \"string\"\x7d, \"minItems\": 1, \"type\": \"array\"\x7d,\n    \"recommendations\": \x7b\"items\": \x7b\"type\": \"string\"\x7d, \"minItems\": 1, \"type\": \"array\"\x7d,\n    \"overall_quality\": \x7b\"type\": \"string\"\x7d\n  \x7d,\n  \"required\": [\"strengths\", \"weaknesses\", \"recommendations\", \"overall_quality\"],\n  \"type\": \"object\"\n\x7d"

/-- prompts.py _sgr_generation: SGR instructions for the generation phase by
preset; any value outside the known presets takes the final default branch. -/
def sgr_generation (preset : String) : String :=
  if preset = "cloze" then
    "Follow Schema-Guided Reasoning (SGR):\n1. Inspect the JSON schema to understand required fields.\n2. Plan atomic cards where each question targets a single missing fact suitable for cloze-style phrasing.\n3. Ensure each answer is a short, specific noun phrase; avoid multi-part or compound answers.\n4. Avoid pronouns or ambiguous references in questions; include minimal context to be self-contained.\n5. Output only valid JSON that conforms to the schema—no commentary or markdown."
  else if preset = "concepts" then
    "Follow Schema-Guided Reasoning (SGR):\n1. Inspect the JSON schema to understand required fields.\n2. Emphasize conceptual understanding: prioritize why/how questions over rote facts.\n3. Each card should test a single mechanism, principle, or causal relation.\n4. Keep answers concise but explanatory; avoid trivia and vague language.\n5. Output only valid JSON that conforms to the schema—no commentary or markdown."
  else if preset = "procedures" then
    "Follow Schema-Guided Reasoning (SGR):\n1. Inspect the JSON schema to understand required fields.\n2. Focus on procedures: steps, order, preconditions, and outcomes.\n3. Ensure one procedure or step-sequence per card; test ordering where relevant.\n4. Answers should state steps succinctly in the correct order.\n5. Output only valid JSON that conforms to the schema—no commentary or markdown."
  else if preset = "programming" then
    "Follow Schema-Guided Reasoning (SGR):\n1. Inspect the JSON schema to understand required fields.\n2. Target APIs, invariants, edge cases, complexity, and exact terminology.\n3. Use precise names/signatures; do not invent functions or behaviors not present in the text.\n4. Keep answers factual and minimal; include tiny code snippets only if necessary (no markdown fences).\n5. Output only valid JSON that conforms to the schema—no commentary or markdown."
  else
    "Follow Schema-Guided Reasoning (SGR):\n1. Inspect the JSON schema to understand required fields.\n2. Plan the content you will produce so it fits the schema.\n3. Cross-check that every field is complete and consistent with the source material.\n4. Output only valid JSON that conforms to the schema—no commentary or markdown."

/-- prompts.py _sgr_reflection: SGR instructions for the reflection phase. -/
def sgr_reflection (preset : String) : String :=
  if preset = "cloze" then
    "Follow Schema-Guided Reasoning (SGR):\n1. Verify each card is atomic and cloze-suitable (one key deletion).\n2. Check for ambiguity, pronouns without referents, and multi-part answers.\n3. Identify missing high-yield facts and redundancies.\n4. Output only valid JSON that conforms to the feedback schema—no commentary or markdown."
  else if preset = "concepts" then
    "Follow Schema-Guided Reasoning (SGR):\n1. Assess conceptual depth: do cards test mechanisms and causes, not trivia.\n2. Flag vagueness and suggest sharper prompts/answers.\n3. Identify coverage gaps for core ideas; remove low-yield detail.\n4. Output only valid JSON that conforms to the feedback schema—no commentary or markdown."
  else if preset = "procedures" then
    "Follow Schema-Guided Reasoning (SGR):\n1. Verify steps are correct, ordered, and minimal per card.\n2. Note missing preconditions/postconditions and common pitfalls.\n3. Suggest splitting compound procedures into separate cards.\n4. Output only valid JSON that conforms to the feedback schema—no commentary or markdown."
  else if preset = "programming" then
    "Follow Schema-Guided Reasoning (SGR):\n1. Validate correctness of terminology, API names, and behavior.\n2. Check for invented details or ambiguity; prefer precise phrasing.\n3. Recommend cards about guarantees, complexity, and edge cases.\n4. Output only valid JSON that conforms to the feedback schema—no commentary or markdown."
  else
    "Follow Schema-Guided Reasoning (SGR):\n1. Inspect the JSON schema to understand required fields.\n2. Evaluate completeness, clarity, and accuracy against the source.\n3. Identify strengths, weaknesses, and concrete improvements.\n4. Output only valid JSON that conforms to the feedback schema—no commentary or markdown."

/-- prompts.py _sgr_improvement: SGR instructions for the improvement phase. -/
def sgr_improvement (preset : String) : String :=
  if preset = "cloze" then
    "Follow Schema-Guided Reasoning (SGR):\n1. Revise to cloze-ready, single-fact cards; remove ambiguity.\n2. Split compound items; ensure answers are short noun phrases.\n3. Keep one fact per card; ensure it is answerable from the prompt alone.\n4. Output only valid JSON that conforms to the schema—no commentary or markdown."
  else if preset = "concepts" then
    "Follow Schema-Guided Reasoning (SGR):\n1. Refactor toward mechanism/why/how questions with concise but explanatory answers.\n2. Remove low-yield trivia; add missing core concepts.\n3. Ensure each card tests a single idea.\n4. Output only valid JSON that conforms to the schema—no commentary or markdown."
  else if preset = "procedures" then
    "Follow Schema-Guided Reasoning (SGR):\n1. Rework cards to present correct step order and necessary conditions.\n2. Split multi-step compounds; keep each card focused.\n3. Use clear, imperative phrasing where appropriate.\n4. Output only valid JSON that conforms to the schema—no commentary or markdown."
  else if preset = "programming" then
    "Follow Schema-Guided Reasoning (SGR):\n1. Correct terminology and ensure API signatures/behaviors reflect the source.\n2. Add high-value cards (guarantees, complexity, pitfalls); remove speculation.\n3. Include minimal code snippets only if essential (no markdown).\n4. Output only valid JSON that conforms to the schema—no commentary or markdown."
  else
    "Follow Schema-Guided Reasoning (SGR):\n1. Address feedback precisely while preserving faithfulness to the text.\n2. Improve clarity, atomicity, and coverage; remove redundancy.\n3. Ensure every field is complete and consistent.\n4. Output only valid JSON that conforms to the schema—no commentary or markdown."

/-- prompts.py get_system_prompts: the (generation, reflection, improvement)
system prompts for a preset; the role lines are fixed and the SGR block varies
with the preset. -/
def get_system_prompts (preset : String) : String × String × String :=
  let gen :=
    "You are an expert at creating educational flashcards for spaced repetition.\n"
    ++ sgr_generation preset
    ++ "\n\nYou must produce JSON matching this schema:\n"
    ++ FLASHCARD_SCHEMA
    ++ "\n\nThe flashcards should be clear, test key concepts, and stay faithful to the provided text."
  let ref :=
    "You are an expert evaluator of educational flashcards.\n"
    ++ sgr_reflection preset
    ++ "\n\nProvide constructive feedback that follows this schema:\n"
    ++ FEEDBACK_SCHEMA
    ++ "\n\nFocus on completeness, clarity, factual accuracy, educational value, and coverage."
  let imp :=
    "You are an expert at improving educational flashcards.\n"
    ++ sgr_improvement preset
    ++ "\n\nReturn improved flashcards that fit this schema:\n"
    ++ FLASHCARD_SCHEMA
    ++ "\n\nEnsure the revised set addresses the review feedback while staying accurate."
  (gen, ref, imp)

/-- schemas.py ensure_flashcards_serializable + prompts.py
_format_flashcards_for_prompt: serialise cards as a JSON block, preserving the
model field order (question, answer). -/
def formatFlashcardsForPrompt (cards : List Flashcard) : String :=
  dumpJson 0 (.arr (cards.map fun c => .obj [("question", .str c.question), ("answer", .str c.answer)]))

/-- schemas.py ensure_feedback_serializable + prompts.py
_format_feedback_for_prompt: serialise feedback as a JSON block, preserving
the model field order. -/
def formatFeedbackForPrompt (fb : FlashcardFeedback) : String :=
  dumpJson 0 (.obj
    [ ("strengths", .arr (fb.strengths.map Json.str)),
      ("weaknesses", .arr (fb.weaknesses.map Json.str)),
      ("recommendations", .arr (fb.recommendations.map Json.str)),
      ("overall_quality", .str fb.overall_quality) ])

/-- prompts.py create_user_prompt: the generation user prompt, or, when an
improvement context (prior cards and feedback) is supplied, the improvement
user prompt. -/
def create_user_prompt (textContent learningDescription : String)
    (improvementContext : Option (List Flashcard × FlashcardFeedback)) : String :=
  match improvementContext with
  | some (qaPairs, feedback) =>
    "Learning objective: \"" ++ learningDescription ++ "\"\n\n"
    ++ "You are improving existing flashcards based on structured feedback.\n\n"
    ++ "Original flashcards:\n" ++ formatFlashcardsForPrompt qaPairs ++ "\n\n"
    ++ "Feedback summary:\n" ++ formatFeedbackForPrompt feedback ++ "\n\n"
    ++ "Source text:\n" ++ textContent ++ "\n\n"
    ++ "Revise the flashcards so they address the feedback while staying accurate to the text."
  | none =>
    "Learning objective: \"" ++ learningDescription ++ "\"\n\n"
    ++ "Source text:\n" ++ textContent ++ "\n\n"
    ++ "Extract essential knowledge and express it as flashcards."

/-- prompts.py create_reflection_prompt: the reflection user prompt. -/
def create_reflection_prompt (qaPairs : List Flashcard)
    (textContent learningDescription : String) : String :=
  "Learning objective: \"" ++ learningDescription ++ "\"\n\n"
  ++ "Source text:\n" ++ textContent ++ "\n\n"
  ++ "Generated flashcards:\n" ++ formatFlashcardsForPrompt qaPairs ++ "\n\n"
  ++ "Assess the flashcards and describe how to improve them."

/-- Modelled from the spec: workflow.py imports GENERATION_PROMPT from
prompts.py, which defines no such module-level constant; the spec reframes the
module-level prompt constants as system_prompts(preset) with default preset
general, so the constant is modelled as the generation component for the
default preset. -/
def GENERATION_PROMPT : String := (get_system_prompts "general").1

/-- Modelled from the spec: the reflection system prompt imported by
workflow.py, reframed as the reflection component for the default preset (see
GENERATION_PROMPT). -/
def REFLECTION_PROMPT : String := (get_system_prompts "general").2.1

/-- Modelled from the spec: the improvement system prompt imported by
workflow.py, reframed as the improvement component for the default preset (see
GENERATION_PROMPT). -/
def IMPROVEMENT_PROMPT : String := (get_system_prompts "general").2.2

/-- constants.py DEFAULT_MODEL. -/
def DEFAULT_MODEL : String := "openai:gpt-5-mini"

deriving instance DecidableEq for Except

/-- Errors raised (as Python exceptions) by workflow.py. -/
inductive WfError where
  | adapterError : WfError
  | jsonArrayNotFound : WfError
  | flashcardSchemaValidation : WfError
  | feedbackSchemaValidation : WfError
  | noValidQaPairs : WfError
  | noValidQaPairsInResponse : WfError
  | attributeGetMissing : WfError
deriving Repr, DecidableEq

/-- Externally observable write performed by the workflow: the markdown
preview report and the .apkg package (a deck is a list of notes, each note its
field list [question, answer], as built by build_anki_deck). -/
inductive Effect where
  | mdReport (content : String) : Effect
  | ankiPackage (deck : List (List String)) : Effect
deriving Repr, DecidableEq

/-- State threaded through one workflow run: how many times the completion
client has been invoked, and which writes have been performed. -/
structure RunState where
  calls : Nat
  effects : List Effect
deriving Repr, DecidableEq

/-- The external completion client (aisuite) as an oracle: from the number of
calls made so far, the model name, the system prompt and the user prompt to
either a transport failure or the raw response text. -/
abbrev Oracle := Nat → String → String → String → Except Unit String

/-- workflow.py call_ai_model: one blocking completion call; a client error
becomes the wrapped adapter error, and the response content is stripped. -/
def call_ai_model (oracle : Oracle) (model systemPrompt userPrompt : String)
    (st : RunState) : Except (WfError × RunState) (String × RunState) :=
  let st' : RunState := ⟨st.calls + 1, st.effects⟩
  match oracle st.calls model systemPrompt userPrompt with
  | .error _ => .error (.adapterError, st')
  | .ok content => .ok (pyStrip content, st')

/-- Index of the first occurrence of a character, tracking the offset:
model of Python str.find restricted to found/not-found. -/
def fFindIdxAux (target : Char) : List Char → Nat → Option Nat
  | [], _ => none
  | c :: rest, i => if c = target then some i else fFindIdxAux target rest (i + 1)

/-- Model of Python str.find restricted to found/not-found. -/
def fFindIdx (target : Char) (cs : List Char) : Option Nat :=
  fFindIdxAux target cs 0

/-- Index of the last occurrence of a character, tracking the offset:
model of Python str.rfind. -/
def rFindIdxAux (target : Char) : List Char → Nat → Option Nat
  | [], _ => none
  | c :: rest, i =>
    match rFindIdxAux target rest (i + 1) with
    | some j => some j
    | none => if c = target then some i else none

/-- Model of Python str.rfind restricted to found/not-found. -/
def rFindIdx (target : Char) (cs : List Char) : Option Nat :=
  rFindIdxAux target cs 0

/-- workflow.py parse_ai_response: find the first left bracket and the last
right bracket; if either is absent (find returned -1, rfind+1 returned 0)
raise the could-not-find-JSON-array error; otherwise decode the slice between
them and validate it as a FlashcardList, any ValidationError becoming the
flashcard-schema-validation error. -/
def parse_ai_response (decode : String → Option Json) (responseContent : String) :
    Except WfError (List Flashcard) :=
  let cs := responseContent.toList
  match fFindIdx '[' cs, rFindIdx ']' cs with
  | some jsonStart, some lastClose =>
    let jsonStr := String.mk ((cs.drop jsonStart).take (lastClose + 1 - jsonStart))
    match decode jsonStr with
    | some (.arr items) =>
      match validate_flashcard_list items with
      | .ok cards => .ok cards
      | .error _ => .error .flashcardSchemaValidation
    | _ => .error .flashcardSchemaValidation
  | _, _ => .error .jsonArrayNotFound

/-- workflow.py parse_feedback_response: find the first left brace and the
last right brace; if both are present the slice between them is the decode
target, otherwise the whole response text is; the target is then decoded and
validated as FlashcardFeedback, any ValidationError becoming the
feedback-schema-validation error.  Note that, unlike parse_ai_response, this
function raises no not-found error when the braces are absent. -/
def parse_feedback_response (decode : String → Option Json) (responseContent : String) :
    Except WfError FlashcardFeedback :=
  let cs := responseContent.toList
  let target :=
    match fFindIdx '\x7b' cs, rFindIdx '\x7d' cs with
    | some jsonStart, some lastClose =>
      String.mk ((cs.drop jsonStart).take (lastClose + 1 - jsonStart))
    | _, _ => responseContent
  match decode target with
  | some (.obj fields) =>
    match validateFeedbackJson fields with
    | .ok feedback => .ok feedback
    | .error _ => .error .feedbackSchemaValidation
  | _ => .error .feedbackSchemaValidation

/-- Model of the attribute access feedback.get(...) in generate_anki_cards
(workflow.py line 388): FlashcardFeedback is a pydantic BaseModel and defines
no get method, so the access raises AttributeError at runtime. -/
def FlashcardFeedback.pyGet (_feedback : FlashcardFeedback) (_key _default : String) :
    Except WfError String :=
  .error .attributeGetMissing

/-- workflow.py generate_qa_pairs: build the user prompt, choose the
improvement system prompt when an improvement context is given and the
generation system prompt otherwise, call the model, parse the response. -/
def generate_qa_pairs (decode : String → Option Json) (oracle : Oracle)
    (model textContent learningDescription : String)
    (improvementContext : Option (List Flashcard × FlashcardFeedback))
    (st : RunState) : Except (WfError × RunState) (List Flashcard × RunState) :=
  let userPrompt := create_user_prompt textContent learningDescription improvementContext
  let systemPrompt :=
    match improvementContext with
    | some _ => IMPROVEMENT_PROMPT
    | none => GENERATION_PROMPT
  match call_ai_model oracle model systemPrompt userPrompt st with
  | .error e => .error e
  | .ok (responseContent, st') =>
    match parse_ai_response decode responseContent with
    | .error e => .error (e, st')
    | .ok qaPairs => .ok (qaPairs, st')

/-- workflow.py reflect_on_qa_pairs: build the reflection prompt, call the
model with the reflection system prompt, parse the feedback. -/
def reflect_on_qa_pairs (decode : String → Option Json) (oracle : Oracle)
    (model : String) (qaPairs : List Flashcard)
    (textContent learningDescription : String)
    (st : RunState) : Except (WfError × RunState) (FlashcardFeedback × RunState) :=
  let reflectionPrompt := create_reflection_prompt qaPairs textContent learningDescription
  match call_ai_model oracle model REFLECTION_PROMPT reflectionPrompt st with
  | .error e => .error e
  | .ok (responseContent, st') =>
    match parse_feedback_response decode responseContent with
    | .error e => .error (e, st')
    | .ok feedback => .ok (feedback, st')

/-- workflow.py improve_qa_pairs: delegate to generate_qa_pairs with the
improvement context holding the prior cards and the feedback. -/
def improve_qa_pairs (decode : String → Option Json) (oracle : Oracle)
    (model : String) (qaPairs : List Flashcard) (feedback : FlashcardFeedback)
    (textContent learningDescription : String)
    (st : RunState) : Except (WfError × RunState) (List Flashcard × RunState) :=
  generate_qa_pairs decode oracle model textContent learningDescription
    (some (qaPairs, feedback)) st

/-- The per-card sections of the markdown report of generate_md_report,
numbering from 1. -/
def mdCardsSection : Nat → List Flashcard → String
  | _, [] => ""
  | idx, card :: rest =>
    "## Card " ++ toString idx ++ "\n\n**Q:** " ++ card.question
    ++ "\n\n**A:** " ++ card.answer ++ "\n\n---\n\n"
    ++ mdCardsSection (idx + 1) rest

/-- The full markdown text written by workflow.py generate_md_report. -/
def mdReportContent (qaPairs : List Flashcard) : String :=
  "# Anki Cards Preview\n\nTotal cards: " ++ toString qaPairs.length
  ++ "\n\n---\n\n" ++ mdCardsSection 1 qaPairs

/-- workflow.py generate_md_report: write the markdown preview file (the
write is recorded as an effect; the file path handling is external). -/
def generate_md_report (qaPairs : List Flashcard) (st : RunState) : RunState :=
  ⟨st.calls, st.effects ++ [.mdReport (mdReportContent qaPairs)]⟩

/-- workflow.py build_anki_deck: reject an empty card sequence, otherwise
build one note with fields [question, answer] per card (the genanki model and
deck identifiers are external constants that do not affect the note data). -/
def build_anki_deck (qaPairs : List Flashcard) : Except WfError (List (List String)) :=
  if qaPairs.isEmpty then .error .noValidQaPairsInResponse
  else
    let deck := qaPairs.map fun card => [card.question, card.answer]
    if deck.isEmpty then .error .noValidQaPairsInResponse
    else .ok deck

/-- workflow.py write_anki_package: write the .apkg file, recorded as an
effect (the external write is assumed to succeed). -/
def write_anki_package (deck : List (List String)) (st : RunState) : RunState :=
  ⟨st.calls, st.effects ++ [.ankiPackage deck]⟩

/-- The reflection-and-improvement for-loop of generate_anki_cards: in each
cycle reflect on the current cards, print the progress line (whose
feedback.get access raises AttributeError, see FlashcardFeedback.pyGet),
then replace the card set with the improved one. -/
def reflection_loop (decode : String → Option Json) (oracle : Oracle)
    (model textContent learningDescription : String) :
    Nat → List Flashcard → RunState → Except (WfError × RunState) (List Flashcard × RunState)
  | 0, qaPairs, st => .ok (qaPairs, st)
  | n + 1, qaPairs, st =>
    match reflect_on_qa_pairs decode oracle model qaPairs textContent learningDescription st with
    | .error e => .error e
    | .ok (feedback, st₁) =>
      match feedback.pyGet "overall_quality" "unknown" with
      | .error e => .error (e, st₁)
      | .ok _ =>
        match improve_qa_pairs decode oracle model qaPairs feedback textContent
            learningDescription st₁ with
        | .error e => .error e
        | .ok (qaPairs₂, st₂) =>
          reflection_loop decode oracle model textContent learningDescription n qaPairs₂ st₂

/-- workflow.py generate_anki_cards: one full workflow run.  Input-file
validation and reading are external collaborators, represented by the
textContent parameter; the progress prints other than the feedback.get access
are purely observational and not modelled.  On success the run state holds
the writes performed; every raised error carries the run state at the raise
site. -/
def generate_anki_cards (decode : String → Option Json) (oracle : Oracle)
    (textContent learningDescription model : String)
    (previewOnly : Bool) (maxReflections : Nat) : Except (WfError × RunState) RunState :=
  match generate_qa_pairs decode oracle model textContent learningDescription none ⟨0, []⟩ with
  | .error e => .error e
  | .ok (qaPairs, st₁) =>
    if qaPairs.isEmpty then .error (.noValidQaPairs, st₁)
    else if previewOnly then .ok (generate_md_report qaPairs st₁)
    else
      match reflection_loop decode oracle model textContent learningDescription
          maxReflections qaPairs st₁ with
      | .error e => .error e
      | .ok (finalPairs, st₂) =>
        let st₃ := generate_md_report finalPairs st₂
        match build_anki_deck finalPairs with
        | .error e => .error (e, st₃)
        | .ok deck => .ok (write_anki_package deck st₃)

/-- A completion oracle whose first response is a well-formed flashcard array
and whose later responses are a well-formed feedback object. -/
def oracleHappy : Oracle := fun n _ _ _ =>
  if n = 0 then .ok "[\x7b\"question\": \"Q1\", \"answer\": \"A1\"\x7d]"
  else .ok "\x7b\"strengths\": [\"clear\"], \"weaknesses\": [\"narrow\"], \"recommendations\": [\"broaden\"], \"overall_quality\": \"good\"\x7d"

/-- A completion oracle answering text with no JSON payload. -/
def oracleGarbage : Oracle := fun _ _ _ _ => .ok "no payload here"

/-- A completion oracle answering a three-card flashcard array. -/
def oracleThreeCards : Oracle := fun _ _ _ _ =>
  .ok "[\x7b\"question\": \"Q1\", \"answer\": \"A1\"\x7d, \x7b\"question\": \"Q2\", \"answer\": \"A2\"\x7d, \x7b\"question\": \"Q3\", \"answer\": \"A3\"\x7d]"

/-- A concrete validated feedback value. -/
def feedbackSample : FlashcardFeedback :=
  ⟨["clear"], ["narrow"], ["broaden"], "good"⟩

/-
  Theorems.  Shared helper lemmas first, then one theorem per claim with its
  witness or counterexample.
-/

/-- The cleaning loop of _validate_non_empty_items equals map-strip followed
by dropping blanks. -/
theorem cleanItems_eq_map_filter (l : List String) :
    cleanItems l = (l.map pyStrip).filter (fun x => x != "") := by
  induction l with
  | nil => rfl
  | cons v rest ih =>
    by_cases h : pyStrip v = ""
    · simp [cleanItems, h, ih]
    · simp [cleanItems, h, ih]

/-- Successful _validate_non_empty_items returns exactly the cleaned list,
which is non-empty. -/
theorem validateNonEmptyItems_ok {l out : List String}
    (h : FlashcardFeedback.validateNonEmptyItems l = .ok out) :
    out = cleanItems l ∧ out ≠ [] := by
  unfold FlashcardFeedback.validateNonEmptyItems at h
  by_cases hc : (cleanItems l).isEmpty
  · simp [hc] at h
  · simp [hc] at h
    refine ⟨h.symm, ?_⟩
    intro hnil
    rw [h, hnil] at hc
    simp at hc

/-- Successful _trim_quality returns exactly the stripped string, which is
non-empty. -/
theorem trimQuality_ok {q out : String}
    (h : FlashcardFeedback.trimQuality q = .ok out) :
    out = pyStrip q ∧ out ≠ "" := by
  unfold FlashcardFeedback.trimQuality at h
  by_cases hc : pyStrip q = ""
  · simp [hc] at h
  · simp [hc] at h
    exact ⟨h.symm, h ▸ hc⟩

/-- A character that does not occur is never found by fFindIdxAux. -/
theorem fFindIdxAux_eq_none {c : Char} {cs : List Char} (h : c ∉ cs) :
    ∀ i, fFindIdxAux c cs i = none := by
  induction cs with
  | nil => intro i; rfl
  | cons a rest ih =>
    intro i
    have hsplit : ¬(c = a ∨ c ∈ rest) := by simpa using h
    have ha : a ≠ c := fun e => hsplit (Or.inl e.symm)
    simp only [fFindIdxAux, if_neg ha]
    exact ih (fun hm => hsplit (Or.inr hm)) (i + 1)

/-- A character that does not occur is never found by rFindIdxAux. -/
theorem rFindIdxAux_eq_none {c : Char} {cs : List Char} (h : c ∉ cs) :
    ∀ i, rFindIdxAux c cs i = none := by
  induction cs with
  | nil => intro i; rfl
  | cons a rest ih =>
    intro i
    have hsplit : ¬(c = a ∨ c ∈ rest) := by simpa using h
    have ha : a ≠ c := fun e => hsplit (Or.inl e.symm)
    simp only [rFindIdxAux, ih (fun hm => hsplit (Or.inr hm)) (i + 1), if_neg ha]

/-- A validated flashcard list is non-empty. -/
theorem validate_flashcard_list_ok_ne_nil {items : List Json} {cards : List Flashcard}
    (h : validate_flashcard_list items = .ok cards) : cards ≠ [] := by
  unfold validate_flashcard_list at h
  split at h
  · exact absurd h (by simp)
  · split at h
    · exact absurd h (by simp)
    · rename_i cs hmap hne
      intro hnil
      rw [← Except.ok.injEq cs cards |>.mp h] at hnil
      simp [hnil] at hne

/-- A successfully parsed flashcard response yields a non-empty card list. -/
theorem parse_ai_response_ok_ne_nil {decode : String → Option Json}
    {rc : String} {cards : List Flashcard}
    (h : parse_ai_response decode rc = .ok cards) : cards ≠ [] := by
  simp only [parse_ai_response] at h
  split at h
  · split at h
    · split at h
      · rename_i hv
        exact Except.ok.injEq _ _ |>.mp h ▸ validate_flashcard_list_ok_ne_nil hv
      · exact absurd h (by simp)
    · exact absurd h (by simp)
  · exact absurd h (by simp)

/-- C8: for all strings q and a whose stripped forms are both non-empty,
flashcard validation succeeds and the constructed Flashcard stores the
stripped values of q and a, not the original strings. -/
theorem validate_flashcard_stores_trimmed (q a : String)
    (hq : pyStrip q ≠ "") (ha : pyStrip a ≠ "") :
    validate_flashcard q a = .ok ⟨pyStrip q, pyStrip a⟩ := by
  simp [validate_flashcard, Flashcard.ensureTrimmed, hq, ha]

/-- Witness for C8 at question "  What? " and answer " A. ". -/
theorem validate_flashcard_stores_trimmed_witness :
    pyStrip "  What? " ≠ "" ∧ pyStrip " A. " ≠ "" ∧
    validate_flashcard "  What? " " A. " = .ok ⟨"What?", "A."⟩ :=
  ⟨by decide, by decide,
    validate_flashcard_stores_trimmed "  What? " " A. " (by decide) (by decide)⟩

/-- C9: for every pair of strings, flashcard validation fails with a
SchemaError whenever either field is empty after stripping, and
flashcard-list validation fails with a SchemaError on an empty list: a
zero-element list is a contract violation, never a valid result. -/
theorem empty_field_and_empty_list_rejected (q a : String)
    (h : pyStrip q = "" ∨ pyStrip a = "") :
    validate_flashcard q a = .error (.valueError "Value must be a non-empty string") ∧
    validate_flashcard_list [] = .error (.valueError "At least one flashcard must be provided") := by
  refine ⟨?_, rfl⟩
  rcases h with h | h
  · simp [validate_flashcard, Flashcard.ensureTrimmed, h]
  · by_cases hq : pyStrip q = ""
    · simp [validate_flashcard, Flashcard.ensureTrimmed, hq]
    · simp [validate_flashcard, Flashcard.ensureTrimmed, hq, h]

/-- Witness for C9 at the two sample inputs: an empty question with a
non-blank answer, and a non-blank question with a whitespace-only answer. -/
theorem empty_field_and_empty_list_rejected_witness :
    (pyStrip "" = "" ∨ pyStrip "x" = "") ∧
    (pyStrip "x" = "" ∨ pyStrip "   " = "") ∧
    validate_flashcard "" "x" = .error (.valueError "Value must be a non-empty string") ∧
    validate_flashcard "x" "   " = .error (.valueError "Value must be a non-empty string") ∧
    validate_flashcard_list [] = .error (.valueError "At least one flashcard must be provided") :=
  ⟨by decide, by decide,
    (empty_field_and_empty_list_rejected "" "x" (by decide)).1,
    (empty_field_and_empty_list_rejected "x" "   " (by decide)).1,
    (empty_field_and_empty_list_rejected "" "x" (by decide)).2⟩

/-- C10: feedback validation normalizes the stored values: each list field is
stored as the stripped survivors of the given entries (blanks dropped), the
result lists are non-empty, and overall_quality is stored stripped and
non-empty. -/
theorem feedback_validation_normalizes
    (s w r : List String) (q : String) (fb : FlashcardFeedback)
    (h : validateFeedbackFields s w r q = .ok fb) :
    fb.strengths = (s.map pyStrip).filter (fun x => x != "") ∧
    fb.weaknesses = (w.map pyStrip).filter (fun x => x != "") ∧
    fb.recommendations = (r.map pyStrip).filter (fun x => x != "") ∧
    fb.overall_quality = pyStrip q ∧
    fb.strengths ≠ [] ∧ fb.weaknesses ≠ [] ∧ fb.recommendations ≠ [] ∧
    fb.overall_quality ≠ "" := by
  unfold validateFeedbackFields at h
  split at h
  · exact absurd h (by simp)
  · rename_i s' hs
    split at h
    · exact absurd h (by simp)
    · rename_i w' hw
      split at h
      · exact absurd h (by simp)
      · rename_i r' hr
        split at h
        · exact absurd h (by simp)
        · rename_i q' hq
          obtain ⟨hs1, hs2⟩ := validateNonEmptyItems_ok hs
          obtain ⟨hw1, hw2⟩ := validateNonEmptyItems_ok hw
          obtain ⟨hr1, hr2⟩ := validateNonEmptyItems_ok hr
          obtain ⟨hq1, hq2⟩ := trimQuality_ok hq
          have hfb : fb = ⟨s', w', r', q'⟩ := (Except.ok.injEq _ _ |>.mp h).symm
          subst hfb
          refine ⟨?_, ?_, ?_, ?_, hs2, hw2, hr2, hq2⟩
          · rw [hs1, cleanItems_eq_map_filter]
          · rw [hw1, cleanItems_eq_map_filter]
          · rw [hr1, cleanItems_eq_map_filter]
          · exact hq1

/-- Witness for C10 at strengths containing a padded and a blank entry. -/
theorem feedback_validation_normalizes_witness :
    (["clear"] : List String) = (["  clear ", "   "].map pyStrip).filter (fun x => x != "") ∧
    (["narrow"] : List String) = ([" narrow"].map pyStrip).filter (fun x => x != "") ∧
    (["broaden"] : List String) = (["broaden "].map pyStrip).filter (fun x => x != "") ∧
    ("good" : String) = pyStrip "  good " ∧
    (["clear"] : List String) ≠ [] ∧ (["narrow"] : List String) ≠ [] ∧
    (["broaden"] : List String) ≠ [] ∧ ("good" : String) ≠ "" :=
  feedback_validation_normalizes ["  clear ", "   "] [" narrow"] ["broaden "] "  good "
    ⟨["clear"], ["narrow"], ["broaden"], "good"⟩ (by rfl)

/-- C3 counterexample: for the preset value "not-a-real-preset", which is
outside the closed preset set, the system-prompt builder does not fail: it
returns a prompt triple, namely the one produced for "general". -/
theorem unknown_preset_returns_general_triple :
    get_system_prompts "not-a-real-preset" = get_system_prompts "general" := rfl

/-- C3 amended: for every preset value outside the closed set, the
system-prompt builder does not fail with a ConfigError; every instruction
selector takes its default branch, so the builder returns exactly the prompt
triple of the "general" preset. -/
theorem unknown_preset_falls_back_to_general (preset : String)
    (h : preset ∉ AVAILABLE_PRESETS) :
    get_system_prompts preset = get_system_prompts "general" := by
  simp only [AVAILABLE_PRESETS, List.mem_cons, List.mem_singleton] at h
  push_neg at h
  obtain ⟨-, h2, h3, h4, h5⟩ := h
  simp [get_system_prompts, sgr_generation, sgr_reflection, sgr_improvement,
    h2, h3, h4, h5]

/-- Witness for C3 at the preset value "nonsense". -/
theorem unknown_preset_falls_back_to_general_witness :
    ("nonsense" : String) ∉ AVAILABLE_PRESETS ∧
    get_system_prompts "nonsense" = get_system_prompts "general" :=
  ⟨by decide, unknown_preset_falls_back_to_general "nonsense" (by decide)⟩

/-- C4 counterexample: the response text consisting of a right bracket, a
space, and a left bracket has a left bracket, and its only right bracket comes
before that left bracket, so the claim requires the no-array-found error; the
code instead slices an empty string, fails to decode it, and raises the
flashcard-schema-validation error. -/
theorem bracket_only_before_open_is_schema_error :
    parse_ai_response jsonDecode "] [" = .error .flashcardSchemaValidation ∧
    parse_ai_response jsonDecode "] [" ≠ .error .jsonArrayNotFound :=
  ⟨rfl, by decide⟩

/-- C4 amended: for every raw text in which no left bracket occurs, or in
which no right bracket occurs at all, parse_ai_response fails with the
no-array-found error; a right bracket occurring only before the first left
bracket instead leads to the malformed-slice schema-validation error. -/
theorem missing_bracket_is_no_array_error (decode : String → Option Json)
    (rc : String) (h : '[' ∉ rc.toList ∨ ']' ∉ rc.toList) :
    parse_ai_response decode rc = .error .jsonArrayNotFound := by
  simp only [parse_ai_response]
  rcases h with h | h
  · rw [show fFindIdx '[' rc.toList = none from fFindIdxAux_eq_none h 0]
  · rw [show rFindIdx ']' rc.toList = none from rFindIdxAux_eq_none h 0]
    cases fFindIdx '[' rc.toList
    all_goals rfl

/-- Witness for C4 at a response with no brackets. -/
theorem missing_bracket_is_no_array_error_witness :
    ('[' ∉ "no payload here".toList ∨ ']' ∉ "no payload here".toList) ∧
    parse_ai_response jsonDecode "no payload here" = .error .jsonArrayNotFound :=
  ⟨by decide,
    missing_bracket_is_no_array_error jsonDecode "no payload here" (by decide)⟩

/-- C5: evaluating the code at the failing input "This is not JSON" (which
contains no brace): parse_feedback_response does not fail with a
no-object-found error — no such error exists in the function — but attempts to
decode the entire text and raises the feedback-schema-validation error; and at
an input with braces, extraction and validation do use the substring between
the first and last brace, so a well-formed object embedded in noise parses. -/
theorem feedback_missing_brace_is_schema_error :
    parse_feedback_response jsonDecode "This is not JSON" = .error .feedbackSchemaValidation ∧
    parse_feedback_response jsonDecode "noise \x7b\"strengths\": [\"s\"], \"weaknesses\": [\"w\"], \"recommendations\": [\"r\"], \"overall_quality\": \"ok\"\x7d noise"
      = .ok ⟨["s"], ["w"], ["r"], "ok"⟩ :=
  ⟨rfl, rfl⟩

/-- A successful completion call leaves the performed writes unchanged. -/
theorem call_ai_model_ok_effects {oracle : Oracle} {m sp up : String}
    {st : RunState} {c : String} {st' : RunState}
    (h : call_ai_model oracle m sp up st = .ok (c, st')) :
    st'.effects = st.effects := by
  simp only [call_ai_model] at h
  split at h
  · simp at h
  · simp only [Except.ok.injEq, Prod.mk.injEq] at h
    rw [← h.2]

/-- A failing completion call reports a state with unchanged writes. -/
theorem call_ai_model_err_effects {oracle : Oracle} {m sp up : String}
    {st : RunState} {e : WfError} {st' : RunState}
    (h : call_ai_model oracle m sp up st = .error (e, st')) :
    st'.effects = st.effects := by
  simp only [call_ai_model] at h
  split at h
  · simp only [Except.error.injEq, Prod.mk.injEq] at h
    rw [← h.2]
  · simp at h

/-- A successful generation (or improvement) call leaves the writes unchanged
and yields a non-empty card list. -/
theorem generate_qa_pairs_ok {decode : String → Option Json} {oracle : Oracle}
    {model tc ld : String} {ctx : Option (List Flashcard × FlashcardFeedback)}
    {st : RunState} {cards : List Flashcard} {st' : RunState}
    (h : generate_qa_pairs decode oracle model tc ld ctx st = .ok (cards, st')) :
    st'.effects = st.effects ∧ cards ≠ [] := by
  cases ctx <;>
  · simp only [generate_qa_pairs] at h
    split at h
    · simp at h
    · rename_i content st₁ hcall
      split at h
      · simp at h
      · rename_i cs hp
        simp only [Except.ok.injEq, Prod.mk.injEq] at h
        exact ⟨h.2 ▸ call_ai_model_ok_effects hcall, h.1 ▸ parse_ai_response_ok_ne_nil hp⟩

/-- A failing generation (or improvement) call reports a state with unchanged
writes. -/
theorem generate_qa_pairs_err_effects {decode : String → Option Json} {oracle : Oracle}
    {model tc ld : String} {ctx : Option (List Flashcard × FlashcardFeedback)}
    {st : RunState} {e : WfError} {st' : RunState}
    (h : generate_qa_pairs decode oracle model tc ld ctx st = .error (e, st')) :
    st'.effects = st.effects := by
  cases ctx <;>
  · simp only [generate_qa_pairs] at h
    split at h
    · rename_i p hcall
      have he := (Except.error.injEq _ _).mp h
      subst he
      exact call_ai_model_err_effects hcall
    · rename_i content st₁ hcall
      split at h
      · rename_i e₀ hp
        have he := (Except.error.injEq _ _).mp h
        have h2 : st₁ = st' := congrArg Prod.snd he
        exact h2 ▸ call_ai_model_ok_effects hcall
      · simp at h

/-- A successful reflection call leaves the writes unchanged. -/
theorem reflect_on_qa_pairs_ok_effects {decode : String → Option Json} {oracle : Oracle}
    {model : String} {qaPairs : List Flashcard} {tc ld : String}
    {st : RunState} {fb : FlashcardFeedback} {st' : RunState}
    (h : reflect_on_qa_pairs decode oracle model qaPairs tc ld st = .ok (fb, st')) :
    st'.effects = st.effects := by
  simp only [reflect_on_qa_pairs] at h
  split at h
  · simp at h
  · rename_i content st₁ hcall
    split at h
    · simp at h
    · simp only [Except.ok.injEq, Prod.mk.injEq] at h
      exact h.2 ▸ call_ai_model_ok_effects hcall

/-- A failing reflection call reports a state with unchanged writes. -/
theorem reflect_on_qa_pairs_err_effects {decode : String → Option Json} {oracle : Oracle}
    {model : String} {qaPairs : List Flashcard} {tc ld : String}
    {st : RunState} {e : WfError} {st' : RunState}
    (h : reflect_on_qa_pairs decode oracle model qaPairs tc ld st = .error (e, st')) :
    st'.effects = st.effects := by
  simp only [reflect_on_qa_pairs] at h
  split at h
  · rename_i p hcall
    have he := (Except.error.injEq _ _).mp h
    subst he
    exact call_ai_model_err_effects hcall
  · rename_i content st₁ hcall
    split at h
    · rename_i e₀ hp
      have he := (Except.error.injEq _ _).mp h
      have h2 : st₁ = st' := congrArg Prod.snd he
      exact h2 ▸ call_ai_model_ok_effects hcall
    · simp at h

/-- The reflection loop can only return successfully by performing zero
cycles: with at least one cycle requested, the progress line's feedback.get
access raises before any improvement, so a successful loop returns its input
cards and state unchanged. -/
theorem reflection_loop_ok {decode : String → Option Json} {oracle : Oracle}
    {model tc ld : String} {n : Nat} {qa : List Flashcard} {st : RunState}
    {cards' : List Flashcard} {st' : RunState}
    (h : reflection_loop decode oracle model tc ld n qa st = .ok (cards', st')) :
    cards' = qa ∧ st' = st := by
  cases n with
  | zero =>
    simp only [reflection_loop, Except.ok.injEq, Prod.mk.injEq] at h
    exact ⟨h.1.symm, h.2.symm⟩
  | succ n =>
    simp only [reflection_loop] at h
    split at h
    · simp at h
    · simp [FlashcardFeedback.pyGet] at h

/-- A failing reflection loop reports a state with the same writes as its
input state. -/
theorem reflection_loop_err_effects {decode : String → Option Json} {oracle : Oracle}
    {model tc ld : String} {n : Nat} {qa : List Flashcard} {st : RunState}
    {e : WfError} {st' : RunState}
    (h : reflection_loop decode oracle model tc ld n qa st = .error (e, st')) :
    st'.effects = st.effects := by
  cases n with
  | zero => simp [reflection_loop] at h
  | succ n =>
    simp only [reflection_loop] at h
    split at h
    · rename_i p hrefl
      have he := (Except.error.injEq _ _).mp h
      subst he
      exact reflect_on_qa_pairs_err_effects hrefl
    · rename_i fb st₁ hrefl
      simp only [FlashcardFeedback.pyGet] at h
      have he := (Except.error.injEq _ _).mp h
      have h2 : st₁ = st' := congrArg Prod.snd he
      exact h2 ▸ reflect_on_qa_pairs_ok_effects hrefl

/-- Building a deck from a non-empty card list succeeds with one note of
fields [question, answer] per card. -/
theorem build_anki_deck_ok {cards : List Flashcard} (h : cards ≠ []) :
    build_anki_deck cards = .ok (cards.map fun card => [card.question, card.answer]) := by
  cases cards with
  | nil => exact absurd rfl h
  | cons a as => simp [build_anki_deck]

/-- C2: if any phase of the workflow raises an error, the run aborts with
that error and the reported state records no writes: no markdown report, no
deck, no package — no partial or previous card set is handed out. -/
theorem error_aborts_without_writes (decode : String → Option Json) (oracle : Oracle)
    (tc ld model : String) (previewOnly : Bool) (maxReflections : Nat)
    (e : WfError) (st : RunState)
    (h : generate_anki_cards decode oracle tc ld model previewOnly maxReflections
      = .error (e, st)) :
    st.effects = [] := by
  simp only [generate_anki_cards] at h
  split at h
  · rename_i p hgen
    have he := (Except.error.injEq _ _).mp h
    subst he
    exact generate_qa_pairs_err_effects hgen
  · rename_i qa st₁ hgen
    obtain ⟨heff, hne⟩ := generate_qa_pairs_ok hgen
    have hemp : qa.isEmpty = false := by
      cases qa with
      | nil => exact absurd rfl hne
      | cons a as => rfl
    rw [hemp] at h
    simp only [Bool.false_eq_true, if_false] at h
    cases previewOnly with
    | true => simp at h
    | false =>
      simp only [Bool.false_eq_true, if_false] at h
      split at h
      · rename_i p hloop
        have he := (Except.error.injEq _ _).mp h
        subst he
        exact (reflection_loop_err_effects hloop).trans heff
      · rename_i fc st₂ hloop
        obtain ⟨hfc, hst⟩ := reflection_loop_ok hloop
        subst hfc
        rw [build_anki_deck_ok hne] at h
        simp at h

/-- Witness for C2: a run whose generation response holds no JSON array
aborts with the no-array-found error after one adapter call and no writes. -/
theorem error_aborts_without_writes_witness :
    generate_anki_cards jsonDecode oracleGarbage "src" "obj" "m" false 1
      = .error (.jsonArrayNotFound, ⟨1, []⟩) ∧
    (RunState.mk 1 []).effects = [] :=
  ⟨rfl, error_aborts_without_writes jsonDecode oracleGarbage "src" "obj" "m" false 1
    .jsonArrayNotFound ⟨1, []⟩ (by rfl)⟩

/-- C1: evaluating the workflow on a well-formed oracle: a full run with one
requested reflection aborts with the AttributeError raised by the progress
line's feedback.get access after exactly 2 adapter calls (not the claimed
1 + 2·1 = 3), and likewise with three requested reflections (not 7); the
preview run makes exactly 1 adapter call, and a full run with zero
reflections makes exactly 1 = 1 + 2·0 calls, as claimed. -/
theorem adapter_call_counts_and_reflection_crash :
    generate_anki_cards jsonDecode oracleHappy "src" "obj" "m" false 1
      = .error (.attributeGetMissing, ⟨2, []⟩) ∧
    generate_anki_cards jsonDecode oracleHappy "src" "obj" "m" false 3
      = .error (.attributeGetMissing, ⟨2, []⟩) ∧
    (generate_anki_cards jsonDecode oracleHappy "src" "obj" "m" true 1).map
      (fun st => st.calls) = .ok 1 ∧
    (generate_anki_cards jsonDecode oracleHappy "src" "obj" "m" false 0).map
      (fun st => st.calls) = .ok 1 :=
  ⟨rfl, rfl, rfl, rfl⟩

/-- C7: a successful improvement call returns exactly the card list parsed
from that call's (stripped) response — the prior card set is fully replaced,
with no dependence on its length, never merged. -/
theorem improvement_replaces_card_set (decode : String → Option Json) (oracle : Oracle)
    (model : String) (qaPairs : List Flashcard) (feedback : FlashcardFeedback)
    (tc ld : String) (st : RunState) (cards' : List Flashcard) (st' : RunState)
    (resp : String)
    (h : improve_qa_pairs decode oracle model qaPairs feedback tc ld st = .ok (cards', st'))
    (hresp : oracle st.calls model IMPROVEMENT_PROMPT
      (create_user_prompt tc ld (some (qaPairs, feedback))) = .ok resp) :
    parse_ai_response decode (pyStrip resp) = .ok cards' := by
  simp only [improve_qa_pairs, generate_qa_pairs, call_ai_model, hresp] at h
  split at h
  · simp at h
  · rename_i cs hp
    simp only [Except.ok.injEq, Prod.mk.injEq] at h
    rw [← h.1]
    exact hp

/-- Witness for C7: starting from 2 cards, an improvement response holding 3
cards yields exactly those 3 cards, not 5. -/
theorem improvement_replaces_card_set_witness :
    ([⟨"Q1", "A1"⟩, ⟨"Q2", "A2"⟩] : List Flashcard).length = 2 ∧
    parse_ai_response jsonDecode
      (pyStrip "[\x7b\"question\": \"Q1\", \"answer\": \"A1\"\x7d, \x7b\"question\": \"Q2\", \"answer\": \"A2\"\x7d, \x7b\"question\": \"Q3\", \"answer\": \"A3\"\x7d]")
      = .ok [⟨"Q1", "A1"⟩, ⟨"Q2", "A2"⟩, ⟨"Q3", "A3"⟩] ∧
    ([⟨"Q1", "A1"⟩, ⟨"Q2", "A2"⟩, ⟨"Q3", "A3"⟩] : List Flashcard).length = 3 :=
  ⟨rfl,
    improvement_replaces_card_set jsonDecode oracleThreeCards "m"
      [⟨"Q1", "A1"⟩, ⟨"Q2", "A2"⟩] feedbackSample "src" "obj" ⟨0, []⟩
      [⟨"Q1", "A1"⟩, ⟨"Q2", "A2"⟩, ⟨"Q3", "A3"⟩] ⟨1, []⟩
      "[\x7b\"question\": \"Q1\", \"answer\": \"A1\"\x7d, \x7b\"question\": \"Q2\", \"answer\": \"A2\"\x7d, \x7b\"question\": \"Q3\", \"answer\": \"A3\"\x7d]"
      (by rfl) (by rfl),
    rfl⟩

/-- C6 counterexample: with the same generated card set, the artifacts the
preview path hands to the external collaborators differ from those of a full
run with zero reflection cycles — the preview path hands no .apkg package. -/
theorem preview_and_full_run_hand_different_artifacts :
    (generate_anki_cards jsonDecode oracleHappy "src" "obj" "m" true 0).map
      (fun st => st.effects)
    ≠ (generate_anki_cards jsonDecode oracleHappy "src" "obj" "m" false 0).map
      (fun st => st.effects) := by decide

/-- C6 amended: for the same generated card set, the preview path hands the
external collaborators exactly the markdown report, identical to the report a
full zero-reflection run hands them; but the full run additionally builds the
deck and hands the .apkg package write, which the preview path skips. -/
theorem preview_shares_report_full_adds_package (decode : String → Option Json)
    (oracle : Oracle) (tc ld model : String) (cards : List Flashcard)
    (stg st₁ st₂ : RunState)
    (hgen : generate_qa_pairs decode oracle model tc ld none ⟨0, []⟩ = .ok (cards, stg))
    (h₁ : generate_anki_cards decode oracle tc ld model true 0 = .ok st₁)
    (h₂ : generate_anki_cards decode oracle tc ld model false 0 = .ok st₂) :
    st₁.effects = [.mdReport (mdReportContent cards)] ∧
    st₂.effects = [.mdReport (mdReportContent cards),
      .ankiPackage (cards.map fun card => [card.question, card.answer])] := by
  obtain ⟨heff, hne⟩ := generate_qa_pairs_ok hgen
  have hemp : cards.isEmpty = false := by
    cases cards with
    | nil => exact absurd rfl hne
    | cons a as => rfl
  constructor
  · simp only [generate_anki_cards, hgen, hemp, Bool.false_eq_true, if_false,
      if_true, Except.ok.injEq] at h₁
    rw [← h₁]
    simp only [generate_md_report, heff]
    rfl
  · simp only [generate_anki_cards, hgen, hemp, Bool.false_eq_true, if_false,
      reflection_loop] at h₂
    rw [build_anki_deck_ok hne] at h₂
    simp only [Except.ok.injEq] at h₂
    rw [← h₂]
    simp only [write_anki_package, generate_md_report, heff]
    rfl

/-- Witness for C6: on a concrete run, the preview path hands exactly the
markdown report and the full zero-reflection run hands that identical report
plus the package built from the same cards. -/
theorem preview_shares_report_full_adds_package_witness :
    generate_anki_cards jsonDecode oracleHappy "src" "obj" "m" true 0
      = .ok ⟨1, [.mdReport (mdReportContent [⟨"Q1", "A1"⟩])]⟩ ∧
    generate_anki_cards jsonDecode oracleHappy "src" "obj" "m" false 0
      = .ok ⟨1, [.mdReport (mdReportContent [⟨"Q1", "A1"⟩]),
          .ankiPackage [["Q1", "A1"]]]⟩ ∧
    (RunState.mk 1 [.mdReport (mdReportContent [⟨"Q1", "A1"⟩])]).effects
      = [.mdReport (mdReportContent [⟨"Q1", "A1"⟩])] ∧
    (RunState.mk 1 [.mdReport (mdReportContent [⟨"Q1", "A1"⟩]),
        .ankiPackage [["Q1", "A1"]]]).effects
      = [.mdReport (mdReportContent [⟨"Q1", "A1"⟩]),
          .ankiPackage (([⟨"Q1", "A1"⟩] : List Flashcard).map
            fun card => [card.question, card.answer])] :=
  ⟨rfl, rfl,
    (preview_shares_report_full_adds_package jsonDecode oracleHappy "src" "obj" "m"
      [⟨"Q1", "A1"⟩] ⟨1, []⟩
      ⟨1, [.mdReport (mdReportContent [⟨"Q1", "A1"⟩])]⟩
      ⟨1, [.mdReport (mdReportContent [⟨"Q1", "A1"⟩]), .ankiPackage [["Q1", "A1"]]]⟩
      (by rfl) (by rfl) (by rfl)).1,
    (preview_shares_report_full_adds_package jsonDecode oracleHappy "src" "obj" "m"
      [⟨"Q1", "A1"⟩] ⟨1, []⟩
      ⟨1, [.mdReport (mdReportContent [⟨"Q1", "A1"⟩])]⟩
      ⟨1, [.mdReport (mdReportContent [⟨"Q1", "A1"⟩]), .ankiPackage [["Q1", "A1"]]]⟩
      (by rfl) (by rfl) (by rfl)).2⟩
